import Mathlib

/-!
Shallow embedding of the triage core of the VIT email-assistant repository:
`priority_system.py` (scoring and categorization), `notification_system.py`
(batch dispatch), and the monitoring loop plus its persistence helpers in
`smart_email_assistant.py`.

Python strings are modelled as Lean `String`; `str.lower()` is modelled on
the ASCII range (the ids, labels, addresses and keywords this program
manipulates are ASCII).  Python `needle in hay` on strings is substring
containment.  A Python `set` is modelled by its contents (a duplicate-free
list in insertion order) together with an arbitrary iteration order: CPython
sets are unordered (hash-based, randomized for strings), so any permutation
of the contents is a legal result of `list(s)`.  Where the code consults
iteration order, the model takes the order as an explicit parameter.
-/

namespace EmailAssistant

/-! String helpers used by the source: `.lower()`, substring test, and the
regex `<([^>]+)>` used in `priority_system.calculate_priority`. -/

/-- ASCII model of Python `str.lower()` on a single character. -/
def lowerChar (c : Char) : Char :=
  if 'A' ≤ c ∧ c ≤ 'Z' then Char.ofNat (c.toNat + 32) else c

/-- ASCII model of Python `str.lower()`. -/
def lowerStr (s : String) : String := String.mk (s.toList.map lowerChar)

/-- Python `needle in hay` on character lists (contiguous-substring test). -/
def isSubSeg (needle : List Char) : List Char → Bool
  | [] => needle.isEmpty
  | c :: t => needle.isPrefixOf (c :: t) || isSubSeg needle t

/-- Python `needle in hay` for strings. -/
def pyIn (needle hay : String) : Bool := isSubSeg needle.toList hay.toList

/-- Model of `re.search(r'<([^>]+)>', s)`: the capture group at the first
position where the pattern matches, i.e. the first `<` that is immediately
followed by at least one character other than `>` and then (later) a `>`;
the group is everything between that `<` and the first subsequent `>`. -/
def findAngleGroup : List Char → Option (List Char)
  | [] => none
  | c :: rest =>
    if c = '<' then
      let run := rest.takeWhile (fun d => d ≠ '>')
      if run ≠ [] ∧ run.length < rest.length then some run
      else findAngleGroup rest
    else findAngleGroup rest

/-! Data model: one fetched email, worked on as a mutable dict in the source
(`raw_email.copy()` in `process_single_email`); optional fields model dict
keys that may be absent, with the `.get` defaults applied at use sites
exactly where the source applies them. -/

structure EmailData where
  id : String := ""
  sender : String := ""
  toField : String := ""
  subject : String := ""
  content : String := ""
  summary : Option String := none
  classification : Option String := none
  intent : Option String := none
  sentiment : Option String := none
  action_items : Option (List String) := none
  priority_score : Option Int := none
  priority_category : Option String := none
  errorMsg : Option String := none
deriving Repr, DecidableEq

/-- The `notification_rules` block of `config.json`, with the defaults the
source supplies at `.get` sites. -/
structure NotificationRules where
  whatsapp_enabled : Bool := false
  push_enabled : Bool := false
  email_enabled : Bool := false
  notify_whatsapp_for : List String := ["critical"]
  notify_push_for : List String := ["critical", "high"]
  notify_email_for : List String := ["critical"]
deriving Repr, DecidableEq

/-- The `notification_settings` block of `config.json`; these two numbers
double as the categorization thresholds in `priority_system.categorize_emails`
and in `process_single_email`. -/
structure NotificationSettings where
  push_threshold : Int := 50
  whatsapp_threshold : Int := 75
deriving Repr, DecidableEq

/-- The configuration record, restricted to the keys the triage core reads. -/
structure Config where
  user_email : String := ""
  vip_contacts : List String := []
  custom_keywords : List String := []
  notification_rules : NotificationRules := {}
  notification_settings : NotificationSettings := {}
deriving Repr, DecidableEq

/-! Embedding of `priority_system.calculate_priority` (lines 56-126). -/

/-- Classification-based base score (step 1 of `calculate_priority`). -/
def classificationScore (classification : String) : Int :=
  if classification = "Urgent Action" then 40
  else if classification = "Work" then 10
  else if classification = "Personal" then 5
  else if classification = "Promotion/Newsletter" ∨ classification = "Spam" then -10
  else 0

/-- Intent-based score (step 3 of `calculate_priority`). -/
def intentScore (intent : String) : Int :=
  if intent = "Request for Action" then 15
  else if intent = "Problem Report" then 10
  else if intent = "Meeting/Scheduling" then 5
  else 0

/-- Sender parsing in `calculate_priority`: take the regex capture group if
present, then lowercase (the source lowercases either way). -/
def parseSender (sender : String) : String :=
  match findAngleGroup sender.toList with
  | some g => lowerStr (String.mk g)
  | none => lowerStr sender

/-- VIP test: `any(vip in sender_email for vip in vip_contacts)` with the
contact list lowercased first. -/
def isVip (sender : String) (vip_contacts : List String) : Bool :=
  (vip_contacts.map lowerStr).any (fun vip => pyIn vip (parseSender sender))

/-- Keyword score (step 4): +15 if a custom keyword occurs in the lowercased
subject, else +10 if one occurs in the lowercased body, else 0.  The source
does not lowercase the keywords themselves. -/
def keywordScore (keywords : List String) (subject content : String) : Int :=
  if keywords.any (fun k => pyIn k (lowerStr subject)) then 15
  else if keywords.any (fun k => pyIn k (lowerStr content)) then 10
  else 0

/-- Direct-addressing score (step 5): +5 when the configured user address is
non-empty (Python truthiness of `user_email_lower`) and occurs in the
lowercased `to` field. -/
def addressingScore (user_email : String) (toField : String) : Int :=
  if lowerStr user_email ≠ "" ∧ pyIn (lowerStr user_email) (lowerStr toField) then 5
  else 0

/-- Return value of `priority_system.calculate_priority`: the weighted sum of
the six signal groups, floored at 0.  Dict keys are read with the source's
`.get` defaults (`'Other'`, `'Neutral'`, `[]`, `''`). -/
def calculate_priority (e : EmailData) (cfg : Config) : Int :=
  let classification := e.classification.getD "Other"
  let intent := e.intent.getD "Other"
  let sentiment := e.sentiment.getD "Neutral"
  let action_items := e.action_items.getD []
  let base1 : Int := classificationScore classification
  let base2 : Int := base1 +
    (if isVip e.sender cfg.vip_contacts then
       (40 : Int) + (if sentiment = "Negative" then 10 else 0)
     else 0)
  let base3 : Int := base2 + intentScore intent
  let base4 : Int := base3 + keywordScore cfg.custom_keywords e.subject e.content
  let base5 : Int := base4 + addressingScore cfg.user_email e.toField
  let base6 : Int := base5 + (if action_items ≠ [] then (5 : Int) else 0)
  max 0 base6

/-- The write-back `email_data['priority_score'] = score` performed by
`calculate_priority` before returning. -/
def calculate_priority_update (e : EmailData) (cfg : Config) : EmailData :=
  { e with priority_score := some (calculate_priority e cfg) }

/-! Embedding of `priority_system.categorize_emails` (lines 128-164) and of
the inline categorization in `process_single_email` (lines 213-222); both use
the same if/elif chain with `whatsapp_threshold` (default 75) as the critical
threshold, `push_threshold` (default 50) as the high threshold, and the
hard-coded medium threshold 20. -/

/-- The if/elif chain mapping a score to a category string. -/
def categorize_score (critical_threshold high_threshold : Int) (score : Int) : String :=
  if score ≥ critical_threshold then "critical"
  else if score ≥ high_threshold then "high"
  else if score ≥ 20 then "medium"
  else "low"

/-- Urgency rank of a category string, for stating monotonicity. -/
def tierRank : String → Nat
  | "critical" => 3
  | "high" => 2
  | "medium" => 1
  | _ => 0

/-- Per-email body of the `categorize_emails` loop: ensure the score exists
(recomputing it if the key is absent), then store the category. -/
def categorize_one (cfg : Config) (e : EmailData) : EmailData :=
  let e1 :=
    match e.priority_score with
    | some _ => e
    | _ => calculate_priority_update e cfg
  let score := e1.priority_score.getD 0
  let cat := categorize_score cfg.notification_settings.whatsapp_threshold
    cfg.notification_settings.push_threshold score
  { e1 with priority_category := some cat }

/-- The four buckets returned by `categorize_emails`. -/
structure PriorityLevels where
  critical : List EmailData := []
  high : List EmailData := []
  medium : List EmailData := []
  low : List EmailData := []
deriving Repr, DecidableEq

/-- Loop body of `categorize_emails`: tag the email and append it to the
bucket matching its category. -/
def categorize_step (cfg : Config) (levels : PriorityLevels) (e : EmailData) :
    PriorityLevels :=
  let e2 := categorize_one cfg e
  match e2.priority_category with
  | some "critical" => { levels with critical := levels.critical ++ [e2] }
  | some "high" => { levels with high := levels.high ++ [e2] }
  | some "medium" => { levels with medium := levels.medium ++ [e2] }
  | _ => { levels with low := levels.low ++ [e2] }

/-- Embedding of `categorize_emails`: each email is scored if needed, tagged
with its category, and appended to exactly one bucket. -/
def categorize_emails (emails : List EmailData) (cfg : Config) : PriorityLevels :=
  emails.foldl (categorize_step cfg) {}

/-! Embedding of `notification_system.py`.  The three channel adapters return
a success Bool and catch their own exceptions; their outcome depends on the
config and on external facts (library availability, credentials, transport),
which the model carries explicitly. -/

/-- External facts consulted by the channel adapters: optional-library
availability, credentials from the environment, configured numbers/tokens,
and whether the transport call itself succeeds. -/
structure ChannelEnv where
  twilio_available : Bool := true
  twilio_creds_ok : Bool := true
  twilio_numbers_ok : Bool := true
  twilio_send_ok : Bool := true
  fcm_available : Bool := true
  fcm_key_ok : Bool := true
  device_tokens_ok : Bool := true
  fcm_send_ok : Bool := true
  smtp_config_ok : Bool := true
  smtp_send_ok : Bool := true
deriving Repr, DecidableEq

/-- Success condition of `send_whatsapp_notification` (lines 128-202): the
Twilio library must be importable, `whatsapp_enabled` must be set, the
credentials and numbers must be present, and the transport call must
succeed; any failure returns False. -/
def send_whatsapp_notification (env : ChannelEnv) (cfg : Config) : Bool :=
  env.twilio_available && cfg.notification_rules.whatsapp_enabled &&
    env.twilio_creds_ok && env.twilio_numbers_ok && env.twilio_send_ok

/-- Success condition of `send_push_notification` (lines 204-274), the FCM
analogue of the WhatsApp adapter, gated on `push_enabled`. -/
def send_push_notification (env : ChannelEnv) (cfg : Config) : Bool :=
  env.fcm_available && cfg.notification_rules.push_enabled &&
    env.fcm_key_ok && env.device_tokens_ok && env.fcm_send_ok

/-- Success condition of `send_email_notification` (lines 56-126): complete
SMTP configuration and a successful transport call.  Unlike the other two
adapters, this function never consults the `email_enabled` flag. -/
def send_email_notification (env : ChannelEnv) (_cfg : Config) : Bool :=
  env.smtp_config_ok && env.smtp_send_ok

/-- The three channels evaluated by `send_notifications_for_batch`. -/
inductive Channel
  | whatsapp
  | push
  | emailAlert
deriving Repr, DecidableEq

/-- Per-email outcome of the dispatch loop: which adapters were invoked, the
`notified_types` set (adapters whose send returned True, in the order they
were added), and the contribution to `sent_count`. -/
structure DispatchLog where
  invoked : List Channel := []
  notified_types : List Channel := []
  sent_count : Nat := 0
deriving Repr, DecidableEq

/-- Loop body of `send_notifications_for_batch` (lines 293-329) for one
email: `notified_types` is cleared, then the WhatsApp, push, and email-alert
checks run in order, each guarded by category membership in its trigger list
and by absence from `notified_types`, adding itself to `notified_types` only
when its send returns True. -/
def dispatch_one (cfg : Config) (env : ChannelEnv) (e : EmailData) : DispatchLog :=
  let rules := cfg.notification_rules
  let category := e.priority_category.getD "low"
  let log0 : DispatchLog := {}
  let log1 :=
    if rules.notify_whatsapp_for.contains category &&
        !(log0.notified_types.contains Channel.whatsapp) then
      let ok := send_whatsapp_notification env cfg
      { invoked := log0.invoked ++ [Channel.whatsapp],
        notified_types :=
          if ok then log0.notified_types ++ [Channel.whatsapp] else log0.notified_types,
        sent_count := if ok then log0.sent_count + 1 else log0.sent_count }
    else log0
  let log2 :=
    if rules.notify_push_for.contains category &&
        !(log1.notified_types.contains Channel.push) then
      let ok := send_push_notification env cfg
      { invoked := log1.invoked ++ [Channel.push],
        notified_types :=
          if ok then log1.notified_types ++ [Channel.push] else log1.notified_types,
        sent_count := if ok then log1.sent_count + 1 else log1.sent_count }
    else log1
  let log3 :=
    if rules.notify_email_for.contains category &&
        !(log2.notified_types.contains Channel.emailAlert) then
      let ok := send_email_notification env cfg
      { invoked := log2.invoked ++ [Channel.emailAlert],
        notified_types :=
          if ok then log2.notified_types ++ [Channel.emailAlert] else log2.notified_types,
        sent_count := if ok then log2.sent_count + 1 else log2.sent_count }
    else log2
  log3

/-- Embedding of `send_notifications_for_batch` (lines 276-334): the loop
visits each processed email once; `notified_types.clear()` makes the
per-email logs independent, and the per-email try/except means one email's
dispatch cannot abort another's. -/
def send_notifications_for_batch (processed : List EmailData) (cfg : Config)
    (env : ChannelEnv) : List DispatchLog :=
  processed.map (dispatch_one cfg env)

/-! Embedding of startup: `load_config` in `smart_email_assistant.py`
(lines 90-105) exits the process only when the config file is missing or is
not decodable JSON; a decodable config is returned as-is, with no validation
of its contents.  `main` additionally exits when API_KEY is absent. -/

/-- Possible states of `config.json` on disk. -/
inductive ConfigFile
  | missing
  | badJson
  | wellFormed (c : Config)
deriving Repr, DecidableEq

/-- Embedding of `load_config`: `Except.error` models `sys.exit(1)`. -/
def load_config : ConfigFile → Except String Config
  | .missing => .error "config file not found"
  | .badJson => .error "could not decode JSON"
  | .wellFormed c => .ok c

/-- The checks `main` performs before entering a mode such as the monitoring
loop: `load_config`, then the API_KEY presence check. -/
def startupChecks (cf : ConfigFile) (apiKeyPresent : Bool) : Except String Config :=
  match load_config cf with
  | .error e => .error e
  | .ok c => if apiKeyPresent then .ok c else .error "API_KEY not set"

/-! Embedding of `process_single_email` (lines 154-241).  The try-block runs
four LLM annotation steps, then the priority calculation, then the inline
categorization; an exception may interrupt the sequence after any number of
completed steps, in which case the except-branch (lines 231-239) fills the
error fields.  `ProcOutcome` records how far the try-block got. -/

/-- Values the LLM handler would return for the four annotation steps. -/
structure LlmResults where
  summary : String := ""
  classification : String := ""
  intent : String := ""
  sentiment : String := ""
  action_items : List String := []
deriving Repr, DecidableEq

/-- Outcome of the try-block of `process_single_email`: either it ran to
completion, or an exception was raised after `stepsDone` of the six steps
(summarize, classify, intent/sentiment, action items, priority calculation,
categorization) had completed. -/
inductive ProcOutcome
  | success (r : LlmResults)
  | raisedAfter (r : LlmResults) (stepsDone : Nat) (msg : String)
deriving Repr, DecidableEq

/-- The inline categorization of `process_single_email` (lines 212-222):
same thresholds and if/elif chain as `categorize_emails`. -/
def categorize_after_processing (cfg : Config) (e : EmailData) : EmailData :=
  let score := e.priority_score.getD 0
  let cat := categorize_score cfg.notification_settings.whatsapp_threshold
    cfg.notification_settings.push_threshold score
  { e with priority_category := some cat }

/-- The first `stepsDone` steps of the try-block applied to the working copy
of the raw email. -/
def applyProcessingSteps (cfg : Config) (e : EmailData) (r : LlmResults)
    (stepsDone : Nat) : EmailData :=
  let e1 := if 1 ≤ stepsDone then { e with summary := some r.summary } else e
  let e2 := if 2 ≤ stepsDone then { e1 with classification := some r.classification } else e1
  let e3 := if 3 ≤ stepsDone then
      { e2 with intent := some r.intent, sentiment := some r.sentiment } else e2
  let e4 := if 4 ≤ stepsDone then { e3 with action_items := some r.action_items } else e3
  let e5 := if 5 ≤ stepsDone then calculate_priority_update e4 cfg else e4
  if 6 ≤ stepsDone then categorize_after_processing cfg e5 else e5

/-- The except-branch of `process_single_email` (lines 231-239): default the
summary and classification if still absent, keep any score already computed
(defaulting to 0), force the category to the error marker, and record the
exception message.  The id key is not touched. -/
def exceptBranch (d : EmailData) (msg : String) : EmailData :=
  { d with
    summary := some (d.summary.getD "Processing Error"),
    classification := some (d.classification.getD "Error"),
    priority_score := some (d.priority_score.getD 0),
    priority_category := some "Error",
    errorMsg := some msg }

/-- Embedding of `process_single_email`: the working copy of the raw dict
after the try-block either completed or was interrupted and handled. -/
def process_single_email (raw : EmailData) (cfg : Config) : ProcOutcome → EmailData
  | .success r => applyProcessingSteps cfg raw r 6
  | .raisedAfter r stepsDone msg =>
      exceptBranch (applyProcessingSteps cfg raw r stepsDone) msg

/-! Embedding of the monitoring loop `start_email_monitoring` (lines
246-318 of `smart_email_assistant.py`) and its persistence helpers.

The Python `processed_ids` set is modelled by its contents as a
duplicate-free list in insertion order.  Wherever the source converts the
set to a list (`list(processed_ids)` in the trim step and in
`save_processed_ids`), the iteration order produced is not insertion order:
CPython sets are unordered and string hashing is randomized, so the model
takes the enumeration as an explicit parameter `enumOrder`, constrained in
the theorems only to be a permutation of the contents.

Timestamps (`time.time()` floats) are modelled as integers; only their
ordering matters to the checkpoint logic. -/

/-- State the loop threads between cycles.  `processed_ids` is the
in-memory set (the loop runs in one process, and the persisted copy always
holds a subset of it); `last_check_file` is the contents of
`last_check_timestamp.txt`, the only state whose persistence point decides
the checkpoint claims. -/
structure MonitorState where
  processed_ids : List String := []
  last_check_file : Option Int := none
deriving Repr, DecidableEq

/-- Embedding of `get_last_check_time` (lines 131-143): the persisted
checkpoint, `none` when the file is missing or unparsable. -/
def get_last_check_time (st : MonitorState) : Option Int := st.last_check_file

/-- Embedding of `save_last_check_time` (lines 145-151). -/
def save_last_check_time (st : MonitorState) (t : Int) : MonitorState :=
  { st with last_check_file := some t }

/-- Python `set.add` on the insertion-order contents. -/
def addId (ids : List String) (x : String) : List String :=
  if ids.contains x then ids else ids ++ [x]

/-- The dedup filter (lines 273-281): keep the fetched messages whose id is
truthy and not already in the ledger. -/
def filterNew (processed_ids : List String) (batch : List EmailData) :
    List EmailData :=
  batch.filter (fun e => !(e.id == "") && !(processed_ids.contains e.id))

/-- The records produced by the per-message loop (line 290): one
`process_single_email` call per filtered message; `out` supplies each
call's try-block outcome. -/
def cycleProcessedList (cfg : Config) (out : EmailData → ProcOutcome)
    (ids : List String) (batch : List EmailData) : List EmailData :=
  (filterNew ids batch).map (fun e => process_single_email e cfg (out e))

/-- The ledger additions of the per-message loop (lines 292-294): after each
processing attempt, the returned record's id is added when truthy. -/
def ledgerAfter (ids : List String) (processed : List EmailData) : List String :=
  processed.foldl (fun acc pe => if pe.id = "" then acc else addId acc pe.id) ids

/-- Python `list(processed_ids)[-1500:]` applied to one enumeration of the
set. -/
def lastFifteenHundred (l : List α) : List α := l.drop (l.length - 1500)

/-- The trim step (lines 303-306): when the set holds more than 2000 ids,
replace it by the last 1500 entries of `list(processed_ids)` — "last" in
the set's iteration order `enumOrder`, not in insertion order. -/
def trimStep (enumOrder : List α → List α) (ids : List α) : List α :=
  if ids.length > 2000 then lastFifteenHundred (enumOrder ids) else ids

/-- How far the try-block of one monitoring cycle got before an exception
jumped to the except-branch at line 310.  Exceptions inside
`process_single_email` are caught there and do not abort the cycle; the
aborting ones come from the fetch call or from any later point before the
checkpoint write at line 308 (for example the batch dispatch call). -/
inductive CycleOutcome
  | fetchRaised
  | raisedAfterProcessing (k : Nat)
  | completed
deriving Repr, DecidableEq

/-- One iteration of the `while True` monitoring loop, given the cycle's
`start_time`, the fetched batch, and how far the try-block got.  Only the
completed path reaches `save_processed_ids` (line 302), the trim step, and
`save_last_check_time(start_time)` (line 308); an aborted cycle keeps
whatever ids were added in memory before the exception but never touches
the checkpoint file. -/
def runCycle (cfg : Config) (out : EmailData → ProcOutcome)
    (enumOrder : List String → List String)
    (st : MonitorState) (start_time : Int) (batch : List EmailData) :
    CycleOutcome → MonitorState
  | .fetchRaised => st
  | .raisedAfterProcessing k =>
      let partial1 := (cycleProcessedList cfg out st.processed_ids batch).take k
      { st with processed_ids := ledgerAfter st.processed_ids partial1 }
  | .completed =>
      let processed := cycleProcessedList cfg out st.processed_ids batch
      let ids1 := ledgerAfter st.processed_ids processed
      let ids2 := trimStep enumOrder ids1
      save_last_check_time { st with processed_ids := ids2 } start_time

/-- A state the cycle passes through during its processing phase, together
with whether `send_notifications_for_batch` has been evaluated yet. -/
structure CycleSnapshot where
  processed_ids : List String
  dispatch_evaluated : Bool
deriving Repr, DecidableEq

/-- The reachable states of one cycle's processing phase, in order: one
snapshot at the start of the per-message loop and after each of its
iterations (ids added, dispatch still pending, lines 289-294), then one
after the batch dispatch at line 298. -/
def cycleTrace (cfg : Config) (out : EmailData → ProcOutcome)
    (st : MonitorState) (batch : List EmailData) : List CycleSnapshot :=
  let processed := cycleProcessedList cfg out st.processed_ids batch
  ((List.range (processed.length + 1)).map
    (fun k => ⟨ledgerAfter st.processed_ids (processed.take k), false⟩))
  ++ [⟨ledgerAfter st.processed_ids processed, true⟩]

/-- Total number of emails filed across the four buckets. -/
def bucketTotal (levels : PriorityLevels) : Nat :=
  levels.critical.length + levels.high.length + levels.medium.length +
    levels.low.length

/-- Closed form of `dispatch_one`, for proofs: `notified_types` starts empty
and each channel is checked exactly once, so the three channels contribute
independent segments. -/
def dispatchClosedForm (cfg : Config) (env : ChannelEnv) (e : EmailData) :
    DispatchLog :=
  let category := e.priority_category.getD "low"
  let w := cfg.notification_rules.notify_whatsapp_for.contains category
  let p := cfg.notification_rules.notify_push_for.contains category
  let em := cfg.notification_rules.notify_email_for.contains category
  let ws := send_whatsapp_notification env cfg
  let ps := send_push_notification env cfg
  let es := send_email_notification env cfg
  { invoked :=
      (if w then [Channel.whatsapp] else []) ++
      (if p then [Channel.push] else []) ++
      (if em then [Channel.emailAlert] else []),
    notified_types :=
      (if w && ws then [Channel.whatsapp] else []) ++
      (if p && ps then [Channel.push] else []) ++
      (if em && es then [Channel.emailAlert] else []),
    sent_count :=
      (if w && ws then 1 else 0) + (if p && ps then 1 else 0) +
        (if em && es then 1 else 0) }

/-- A configuration whose email-alert channel is disabled and whose other
channels have empty trigger lists. -/
def emailDisabledConfig : Config :=
  { notification_rules :=
      { email_enabled := false, notify_whatsapp_for := [], notify_push_for := [] } }

/-- A config whose tier thresholds are not ascending: the "critical" cut
(whatsapp_threshold = 30) sits below the "high" cut (push_threshold = 50). -/
def nonAscendingThresholds : Config :=
  { notification_settings := { push_threshold := 50, whatsapp_threshold := 30 } }

/-! Concrete large-ledger scenario for the trim step.  The ids are the
strings `"a"`, `"aa"`, ..., one per length, standing for distinct message
ids; the CPython set's iteration order is adversarial-but-legal (any
permutation of the contents can occur, since string hashing is
randomized). -/

/-- The n-th id: `"a"` repeated n times. -/
def natId (n : Nat) : String := String.mk (List.replicate n 'a')

/-- A ledger filled with the 2000 ids `natId 1 .. natId 2000`, in insertion
order. -/
def bigLedger : List String := (List.range' 1 2000).map natId

/-- The message whose processing crashes and whose id the trim then evicts. -/
def evictedMsg : EmailData := { id := natId 2001 }

/-- Every processing attempt raises immediately. -/
def crashOutcome : EmailData → ProcOutcome :=
  fun _ => ProcOutcome.raisedAfter {} 0 "boom"

/-- A legal set iteration order that enumerates the newest id first: rotate
the insertion order by 2000 positions. -/
def evilEnumOrder (l : List String) : List String := l.rotate 2000

/-- The monitoring state before the crashing cycle: ledger at the cap. -/
def preTrimState : MonitorState :=
  { processed_ids := bigLedger, last_check_file := some 0 }

/-- The state after the cycle that processes (and crashes on) the new
message and then trims. -/
def postTrimState : MonitorState :=
  runCycle {} crashOutcome evilEnumOrder preTrimState 100 [evictedMsg]
    CycleOutcome.completed

/-! Embedding of the ledger persistence round trip: `save_processed_ids`
(lines 123-129) writes `list(ids_set)` — one iteration-order enumeration of
the set — and `load_processed_ids` (lines 107-121) rebuilds a set from the
saved list, so the rebuilt set's contents (and new insertion order) are the
file's order, not the original insertion order. -/

def save_processed_ids (enumOrder : List String → List String)
    (ids : List String) : List String := enumOrder ids

def load_processed_ids (file : List String) : List String := file

/-! Theorems about the embedded program. -/

/-- Every step of the try-block leaves the id key untouched. -/
theorem applyProcessingSteps_id (cfg : Config) (e : EmailData) (r : LlmResults)
    (k : Nat) : (applyProcessingSteps cfg e r k).id = e.id := by
  unfold applyProcessingSteps calculate_priority_update categorize_after_processing
  dsimp only
  split_ifs <;> rfl

/-- The except-branch leaves the id key untouched. -/
theorem exceptBranch_id (d : EmailData) (msg : String) :
    (exceptBranch d msg).id = d.id := rfl

/-- `process_single_email` always returns a record with the original id. -/
theorem process_single_email_id (raw : EmailData) (cfg : Config)
    (out : ProcOutcome) : (process_single_email raw cfg out).id = raw.id := by
  cases out with
  | success r => exact applyProcessingSteps_id cfg raw r 6
  | raisedAfter r k msg =>
    rw [process_single_email, exceptBranch_id, applyProcessingSteps_id]

/-- Each `categorize_step` grows exactly one bucket, by one element. -/
theorem categorize_step_total (cfg : Config) (acc : PriorityLevels)
    (e : EmailData) :
    bucketTotal (categorize_step cfg acc e) = bucketTotal acc + 1 := by
  unfold categorize_step bucketTotal
  dsimp only
  split <;> simp <;> omega

/-- Folding `categorize_step` adds one bucket entry per input email. -/
theorem categorize_fold_total (cfg : Config) (emails : List EmailData)
    (acc : PriorityLevels) :
    bucketTotal (emails.foldl (categorize_step cfg) acc)
      = bucketTotal acc + emails.length := by
  induction emails generalizing acc with
  | nil => simp
  | cons e rest ih =>
    rw [List.foldl_cons, ih, categorize_step_total, List.length_cons]
    omega

/-- C4: the score-to-tier map always lands in exactly one of the four tiers
and `categorize_emails` files each input email in exactly one bucket; the
map is monotone in the score for every threshold configuration; and with
ascending thresholds each boundary is inclusive on the lower end, so a
score equal to a threshold belongs to the higher tier. -/
theorem categorize_exactly_one_monotone_inclusive
    (ct ht s s1 s2 : Int) (emails : List EmailData) (cfg : Config)
    (hmono : s1 ≤ s2) (hasc1 : 20 < ht) (hasc2 : ht < ct) :
    (categorize_score ct ht s = "critical" ∨ categorize_score ct ht s = "high" ∨
      categorize_score ct ht s = "medium" ∨ categorize_score ct ht s = "low") ∧
    tierRank (categorize_score ct ht s1) ≤ tierRank (categorize_score ct ht s2) ∧
    (categorize_score ct ht ct = "critical" ∧ categorize_score ct ht ht = "high" ∧
      categorize_score ct ht 20 = "medium") ∧
    bucketTotal (categorize_emails emails cfg) = emails.length := by
  refine ⟨?_, ?_, ⟨?_, ?_, ?_⟩, ?_⟩
  · unfold categorize_score
    split_ifs <;> simp
  · unfold categorize_score
    split_ifs <;> first | decide | omega
  · unfold categorize_score
    split_ifs <;> first | rfl | omega
  · unfold categorize_score
    split_ifs <;> first | rfl | omega
  · unfold categorize_score
    split_ifs <;> first | rfl | omega
  · unfold categorize_emails
    rw [categorize_fold_total]
    simp [bucketTotal]

/-- C4 witness: the theorem applied at thresholds 75/50, scores 42 and 60,
and a one-element batch. -/
theorem categorize_exactly_one_monotone_inclusive_witness :
    (categorize_score 75 50 42 = "critical" ∨ categorize_score 75 50 42 = "high" ∨
      categorize_score 75 50 42 = "medium" ∨ categorize_score 75 50 42 = "low") ∧
    tierRank (categorize_score 75 50 42) ≤ tierRank (categorize_score 75 50 60) ∧
    (categorize_score 75 50 75 = "critical" ∧ categorize_score 75 50 50 = "high" ∧
      categorize_score 75 50 20 = "medium") ∧
    bucketTotal (categorize_emails [{ id := "m1" }] {}) = 1 :=
  categorize_exactly_one_monotone_inclusive 75 50 42 42 60 [{ id := "m1" }] {}
    (by decide) (by decide) (by decide)

/-- C3: a message whose classification is the urgent-action label, whose
sender matches the VIP list, whose sentiment is negative, and which carries
no other scoring signal (no matching intent, no custom-keyword hit in
subject or body, no direct addressing, no action items) scores exactly
40 + 40 + 10 = 90, and the categorizer at the default thresholds (75/50)
files it as critical. -/
theorem urgent_vip_negative_is_90_critical (e : EmailData) (cfg : Config)
    (hclass : e.classification = some "Urgent Action")
    (hvip : isVip e.sender cfg.vip_contacts = true)
    (hsent : e.sentiment = some "Negative")
    (hintent : e.intent.getD "Other" ∉
      (["Request for Action", "Problem Report", "Meeting/Scheduling"] : List String))
    (hkw : ∀ k ∈ cfg.custom_keywords,
      pyIn k (lowerStr e.subject) = false ∧ pyIn k (lowerStr e.content) = false)
    (haddr : lowerStr cfg.user_email = "" ∨
      pyIn (lowerStr cfg.user_email) (lowerStr e.toField) = false)
    (hact : e.action_items.getD [] = []) :
    calculate_priority e cfg = 90 ∧
    (categorize_one { cfg with notification_settings := {} }
        (calculate_priority_update e cfg)).priority_category = some "critical" := by
  have hint0 : intentScore (e.intent.getD "Other") = 0 := by
    unfold intentScore
    simp only [List.mem_cons, List.not_mem_nil, or_false] at hintent
    push_neg at hintent
    split_ifs <;> simp_all
  have hkw0 : keywordScore cfg.custom_keywords e.subject e.content = 0 := by
    unfold keywordScore
    have hs : cfg.custom_keywords.any (fun k => pyIn k (lowerStr e.subject)) = false := by
      simp only [List.any_eq_false]
      intro k hk
      simp [(hkw k hk).1]
    have hc : cfg.custom_keywords.any (fun k => pyIn k (lowerStr e.content)) = false := by
      simp only [List.any_eq_false]
      intro k hk
      simp [(hkw k hk).2]
    rw [hs, hc]
    simp
  have haddr0 : addressingScore cfg.user_email e.toField = 0 := by
    unfold addressingScore
    rcases haddr with h | h <;> simp [h]
  have h90 : calculate_priority e cfg = 90 := by
    unfold calculate_priority
    rw [hclass, hsent, hvip, hact]
    dsimp only
    rw [hint0, hkw0, haddr0]
    decide
  refine ⟨h90, ?_⟩
  unfold categorize_one calculate_priority_update
  rw [h90]
  rfl

/-- C3 witness: the theorem applied to a concrete urgent VIP complaint. -/
theorem urgent_vip_negative_is_90_critical_witness :
    calculate_priority
        { id := "m1", sender := "Boss <Boss@Example.com>", toField := "team@x.io",
          subject := "re: rollout", content := "this is unacceptable",
          classification := some "Urgent Action", intent := some "Other",
          sentiment := some "Negative" }
        { user_email := "me@x.io", vip_contacts := ["boss@example.com"] } = 90 ∧
    (categorize_one
        { user_email := "me@x.io", vip_contacts := ["boss@example.com"],
          notification_settings := {} }
        (calculate_priority_update
          { id := "m1", sender := "Boss <Boss@Example.com>", toField := "team@x.io",
            subject := "re: rollout", content := "this is unacceptable",
            classification := some "Urgent Action", intent := some "Other",
            sentiment := some "Negative" }
          { user_email := "me@x.io", vip_contacts := ["boss@example.com"] })).priority_category
      = some "critical" :=
  urgent_vip_negative_is_90_critical _ _ (by decide) (by decide) (by decide)
    (by decide) (by decide) (by decide) (by decide)

/-- C9: the priority scorer is a pure function of the message record and
the configuration: it ignores the derived keys that it and the categorizer
write back (`priority_score`, `priority_category`, `summary`, the error
marker), and the embedding takes no other state, so composing scoring with
categorization and running the composite twice returns the record of the
first run unchanged. -/
theorem scoring_pure_and_idempotent (e : EmailData) (cfg : Config)
    (p : Option Int) (c s m : Option String) :
    calculate_priority
        { e with priority_score := p, priority_category := c,
                 summary := s, errorMsg := m } cfg
      = calculate_priority e cfg ∧
    categorize_one cfg (calculate_priority_update
        (categorize_one cfg (calculate_priority_update e cfg)) cfg)
      = categorize_one cfg (calculate_priority_update e cfg) :=
  ⟨rfl, rfl⟩

/-- The dispatch loop body equals its closed form. -/
theorem dispatch_one_eq (cfg : Config) (env : ChannelEnv) (e : EmailData) :
    dispatch_one cfg env e = dispatchClosedForm cfg env e := by
  unfold dispatch_one dispatchClosedForm
  dsimp only
  cases hw : cfg.notification_rules.notify_whatsapp_for.contains
      (e.priority_category.getD "low") <;>
    cases hp : cfg.notification_rules.notify_push_for.contains
      (e.priority_category.getD "low") <;>
    cases he : cfg.notification_rules.notify_email_for.contains
      (e.priority_category.getD "low") <;>
    cases hws : send_whatsapp_notification env cfg <;>
    cases hps : send_push_notification env cfg <;>
    cases hes : send_email_notification env cfg <;>
    simp

/-- C5 amended: within one batch pass each channel's send is invoked at
most once per message record (the per-message `notified_types` guard plus a
single check per channel), and a channel notifies exactly when the
message's category is in its trigger list and its adapter's send succeeds.
The adapter success condition contains the enabled flag for the WhatsApp
and push channels (see `send_whatsapp_notification` and
`send_push_notification`), but `send_email_notification` never consults
`email_enabled`, so the claim's "fires only if enabled" direction is false
for the email-alert channel. -/
theorem dispatch_at_most_once_and_fire_condition
    (cfg : Config) (env : ChannelEnv) (e : EmailData) :
    (∀ ch : Channel,
      (dispatch_one cfg env e).invoked.count ch ≤ 1 ∧
      (dispatch_one cfg env e).notified_types.count ch ≤ 1) ∧
    ((dispatch_one cfg env e).notified_types.contains Channel.whatsapp
      = (cfg.notification_rules.notify_whatsapp_for.contains
          (e.priority_category.getD "low") && send_whatsapp_notification env cfg)) ∧
    ((dispatch_one cfg env e).notified_types.contains Channel.push
      = (cfg.notification_rules.notify_push_for.contains
          (e.priority_category.getD "low") && send_push_notification env cfg)) ∧
    ((dispatch_one cfg env e).notified_types.contains Channel.emailAlert
      = (cfg.notification_rules.notify_email_for.contains
          (e.priority_category.getD "low") && send_email_notification env cfg)) := by
  rw [dispatch_one_eq]
  unfold dispatchClosedForm
  refine ⟨fun ch => ?_, ?_, ?_, ?_⟩
  · constructor <;> (rcases ch <;> dsimp only <;> split_ifs <;> decide)
  · dsimp only
    split_ifs <;> simp_all
  · dsimp only
    split_ifs <;> simp_all
  · dsimp only
    split_ifs <;> simp_all

/-- C5 counterexample: the claimed fire condition requires the channel to
be enabled, but with `email_enabled = false`, complete SMTP configuration
and a working transport, batch dispatch of one critical message still
invokes the email-alert send, which succeeds: a disabled channel fires. -/
theorem dispatch_fires_disabled_email_channel :
    emailDisabledConfig.notification_rules.email_enabled = false ∧
    send_notifications_for_batch [{ id := "m4", priority_category := some "critical" }]
        emailDisabledConfig {}
      = [{ invoked := [Channel.emailAlert], notified_types := [Channel.emailAlert],
           sent_count := 1 }] := by
  constructor
  · rfl
  · decide

/-- C6 counterexample: with non-ascending thresholds configured, startup
does not abort — `load_config` returns the config unchanged and the
API-key check is the only other gate before the monitoring loop — and the
categorizer then runs with the invalid thresholds (a score of 40, below
the high cut, is filed as critical). -/
theorem startup_accepts_non_ascending_thresholds :
    startupChecks (ConfigFile.wellFormed nonAscendingThresholds) true
        = Except.ok nonAscendingThresholds ∧
    categorize_score 30 50 40 = "critical" := by
  constructor
  · rfl
  · decide

/-- C6 amended: startup validates nothing about threshold values;
`load_config` aborts only when the config file is missing or is not
decodable JSON, and any well-formed configuration — whatever its
thresholds — passes startup and reaches the monitoring loop. -/
theorem load_config_no_threshold_validation (c : Config) :
    load_config (ConfigFile.wellFormed c) = Except.ok c ∧
    startupChecks (ConfigFile.wellFormed c) true = Except.ok c ∧
    load_config ConfigFile.missing = Except.error "config file not found" ∧
    load_config ConfigFile.badJson = Except.error "could not decode JSON" :=
  ⟨rfl, rfl, rfl, rfl⟩

/-- C2: the checkpoint file is written only at the end of a completed
cycle: a cycle aborted by an exception — whether the fetch raised or the
batch phase raised after any number of messages — leaves the checkpoint
that the next cycle reads exactly as it was, a completed cycle sets it to
that cycle's start time, and (the wall clock having moved on since the
stored checkpoint was taken) the checkpoint never regresses. -/
theorem checkpoint_advances_only_on_completion
    (cfg : Config) (out : EmailData → ProcOutcome)
    (enumOrder : List String → List String) (st : MonitorState)
    (start_time : Int) (batch : List EmailData) (k : Nat) (oc : CycleOutcome)
    (t0 : Int) (hcp : get_last_check_time st = some t0)
    (hclock : t0 ≤ start_time) :
    get_last_check_time
        (runCycle cfg out enumOrder st start_time batch CycleOutcome.fetchRaised)
      = get_last_check_time st ∧
    get_last_check_time (runCycle cfg out enumOrder st start_time batch
        (CycleOutcome.raisedAfterProcessing k))
      = get_last_check_time st ∧
    get_last_check_time
        (runCycle cfg out enumOrder st start_time batch CycleOutcome.completed)
      = some start_time ∧
    t0 ≤ (get_last_check_time
        (runCycle cfg out enumOrder st start_time batch oc)).getD t0 := by
  refine ⟨rfl, rfl, rfl, ?_⟩
  cases oc with
  | fetchRaised =>
    show t0 ≤ (get_last_check_time st).getD t0
    rw [hcp]
    simp
  | raisedAfterProcessing k2 =>
    show t0 ≤ (get_last_check_time st).getD t0
    rw [hcp]
    simp
  | completed =>
    show t0 ≤ (Option.some start_time).getD t0
    simpa using hclock

/-- C2 witness: a cycle that raised after processing zero messages keeps
the stored checkpoint 50; a completed cycle advances it to its start
time 100. -/
theorem checkpoint_advances_only_on_completion_witness :
    get_last_check_time (⟨[], some 50⟩ : MonitorState) = some 50 ∧
    (50 : Int) ≤ 100 ∧
    (get_last_check_time
        (runCycle {} (fun _ => ProcOutcome.success {}) id ⟨[], some 50⟩ 100 []
          CycleOutcome.fetchRaised)
      = get_last_check_time (⟨[], some 50⟩ : MonitorState) ∧
    get_last_check_time (runCycle {} (fun _ => ProcOutcome.success {}) id
        ⟨[], some 50⟩ 100 [] (CycleOutcome.raisedAfterProcessing 0))
      = get_last_check_time (⟨[], some 50⟩ : MonitorState) ∧
    get_last_check_time (runCycle {} (fun _ => ProcOutcome.success {}) id
        ⟨[], some 50⟩ 100 [] CycleOutcome.completed)
      = some 100 ∧
    (50 : Int) ≤ (get_last_check_time (runCycle {} (fun _ => ProcOutcome.success {}) id
        ⟨[], some 50⟩ 100 [] (CycleOutcome.raisedAfterProcessing 0))).getD 50) :=
  ⟨rfl, by decide,
    checkpoint_advances_only_on_completion {} (fun _ => ProcOutcome.success {}) id
      ⟨[], some 50⟩ 100 [] 0 (CycleOutcome.raisedAfterProcessing 0) 50 rfl (by decide)⟩

/-- Membership in the result of a `set.add`. -/
theorem mem_addId (l : List String) (y x : String) (h : x ∈ addId l y) :
    x ∈ l ∨ x = y := by
  unfold addId at h
  split at h
  · exact Or.inl h
  · rcases List.mem_append.mp h with h | h
    · exact Or.inl h
    · exact Or.inr (List.mem_singleton.mp h)

/-- A `set.add` keeps existing members. -/
theorem mem_addId_of_mem (l : List String) (y x : String) (hx : x ∈ l) :
    x ∈ addId l y := by
  unfold addId
  split
  · exact hx
  · exact List.mem_append_left _ hx

/-- The added id is a member afterwards. -/
theorem self_mem_addId (l : List String) (y : String) : y ∈ addId l y := by
  unfold addId
  split_ifs with h
  · simpa [List.contains] using h
  · exact List.mem_append_right _ (List.mem_singleton.mpr rfl)

/-- Every id in the ledger after some processing attempts came either from
the ledger before them or from a record returned by one of the attempts. -/
theorem ledgerAfter_mem (ids : List String) (pes : List EmailData) (x : String)
    (hx : x ∈ ledgerAfter ids pes) : x ∈ ids ∨ x ∈ pes.map (fun pe => pe.id) := by
  induction pes generalizing ids with
  | nil => exact Or.inl hx
  | cons pe rest ih =>
    unfold ledgerAfter at hx
    rw [List.foldl_cons] at hx
    rcases ih _ hx with h | h
    · by_cases hpe : pe.id = ""
      · rw [if_pos hpe] at h
        exact Or.inl h
      · rw [if_neg hpe] at h
        rcases mem_addId _ _ _ h with h | h
        · exact Or.inl h
        · exact Or.inr (by simp [h])
    · exact Or.inr (by simp [h])

/-- C7 amended: in every state the cycle's processing phase passes through,
any ledger id either predates the cycle or is the id of a record already
returned by `process_single_email` during the cycle; the ids are therefore
added after the processing attempt but before the batch dispatch, which is
evaluated only in the final trace state. -/
theorem ledger_ids_from_processing_attempts
    (cfg : Config) (out : EmailData → ProcOutcome) (st : MonitorState)
    (batch : List EmailData) (snap : CycleSnapshot) (x : String)
    (hsnap : snap ∈ cycleTrace cfg out st batch)
    (hx : x ∈ snap.processed_ids) :
    x ∈ st.processed_ids ∨
      x ∈ (cycleProcessedList cfg out st.processed_ids batch).map
        (fun pe => pe.id) := by
  unfold cycleTrace at hsnap
  rcases List.mem_append.mp hsnap with h | h
  · rcases List.mem_map.mp h with ⟨j, _, hEq⟩
    rw [← hEq] at hx
    dsimp at hx
    rcases ledgerAfter_mem _ _ _ hx with h2 | h2
    · exact Or.inl h2
    · rw [List.map_take] at h2
      exact Or.inr (List.take_subset _ _ h2)
  · rw [List.mem_singleton.mp h] at hx
    exact ledgerAfter_mem _ _ _ hx

/-- C7 counterexample: with an empty starting ledger and a one-message
batch, the monitoring loop reaches the state right after the per-message
loop in which the message's id is already in the ledger while batch
dispatch has not been evaluated yet — refuting the claim that an id is
never added before its message's dispatch completes. -/
theorem ledger_id_present_before_dispatch :
    (⟨["m5"], false⟩ : CycleSnapshot) ∈
        cycleTrace {} (fun _ => ProcOutcome.success {}) {} [{ id := "m5" }] ∧
    "m5" ∈ (⟨["m5"], false⟩ : CycleSnapshot).processed_ids ∧
    (⟨["m5"], false⟩ : CycleSnapshot).dispatch_evaluated = false := by
  refine ⟨by decide, by decide, rfl⟩

/-- C7 amended witness: the theorem applied to that same reachable
snapshot. -/
theorem ledger_ids_from_processing_attempts_witness :
    ((⟨["m5"], false⟩ : CycleSnapshot) ∈
        cycleTrace {} (fun _ => ProcOutcome.success {}) {} [{ id := "m5" }]) ∧
    "m5" ∈ (⟨["m5"], false⟩ : CycleSnapshot).processed_ids ∧
    ("m5" ∈ ({} : MonitorState).processed_ids ∨
      "m5" ∈ (cycleProcessedList {} (fun _ => ProcOutcome.success {})
        ({} : MonitorState).processed_ids [{ id := "m5" }]).map (fun pe => pe.id)) :=
  ⟨by decide, by decide,
    ledger_ids_from_processing_attempts {} (fun _ => ProcOutcome.success {}) {}
      [{ id := "m5" }] ⟨["m5"], false⟩ "m5" (by decide) (by decide)⟩

/-- C8: a fetched message whose id is already in the ledger is removed by
the dedup filter, every message that survives the filter has an
unledgered id, and the per-message pipeline (hence the scorer) runs
exactly on the filtered batch. -/
theorem ledgered_ids_filtered_before_scoring
    (ids : List String) (batch : List EmailData) (e : EmailData)
    (cfg : Config) (out : EmailData → ProcOutcome)
    (_hmem : e ∈ batch) (hid : e.id ∈ ids) :
    e ∉ filterNew ids batch ∧
    (∀ x ∈ filterNew ids batch, x.id ∉ ids) ∧
    cycleProcessedList cfg out ids batch
      = (filterNew ids batch).map (fun x => process_single_email x cfg (out x)) := by
  refine ⟨?_, ?_, rfl⟩
  · intro hcontra
    rcases List.mem_filter.mp hcontra with ⟨_, hpred⟩
    simp [List.contains] at hpred
    exact hpred.2 hid
  · intro x hx
    rcases List.mem_filter.mp hx with ⟨_, hpred⟩
    simp [List.contains] at hpred
    exact hpred.2

/-- C8 witness: with ledger `["x1"]`, the fetched duplicate of `x1` is
dropped and only `x2` reaches processing. -/
theorem ledgered_ids_filtered_before_scoring_witness :
    ({ id := "x1" } : EmailData) ∈ ([{ id := "x1" }, { id := "x2" }] : List EmailData) ∧
    "x1" ∈ ["x1"] ∧
    (({ id := "x1" } : EmailData) ∉ filterNew ["x1"] [{ id := "x1" }, { id := "x2" }] ∧
    (∀ x ∈ filterNew ["x1"] [{ id := "x1" }, { id := "x2" }], x.id ∉ ["x1"]) ∧
    cycleProcessedList {} (fun _ => ProcOutcome.success {}) ["x1"] [{ id := "x1" }, { id := "x2" }]
      = (filterNew ["x1"] [{ id := "x1" }, { id := "x2" }]).map
          (fun x => process_single_email x {} (ProcOutcome.success {}))) :=
  ⟨by decide, by decide,
    ledgered_ids_filtered_before_scoring ["x1"] [{ id := "x1" }, { id := "x2" }]
      { id := "x1" } {} (fun _ => ProcOutcome.success {}) (by decide) (by decide)⟩

/-- Unfolding the per-message ledger fold one step. -/
theorem ledgerAfter_cons (ids : List String) (q : EmailData)
    (rest : List EmailData) :
    ledgerAfter ids (q :: rest)
      = ledgerAfter (if q.id = "" then ids else addId ids q.id) rest := rfl

/-- Ids already in the ledger survive the per-message loop. -/
theorem mem_ledgerAfter_of_mem (ids : List String) (pes : List EmailData)
    (x : String) (hx : x ∈ ids) : x ∈ ledgerAfter ids pes := by
  induction pes generalizing ids with
  | nil => exact hx
  | cons q rest ih =>
    rw [ledgerAfter_cons]
    apply ih
    split_ifs
    · exact hx
    · exact mem_addId_of_mem _ _ _ hx

/-- The id of every processed record with a truthy id ends up in the
ledger after the per-message loop. -/
theorem ledgerAfter_contains_attempt (ids : List String) (pes : List EmailData)
    (pe : EmailData) (hpe : pe ∈ pes) (hne : pe.id ≠ "") :
    pe.id ∈ ledgerAfter ids pes := by
  induction pes generalizing ids with
  | nil => cases hpe
  | cons q rest ih =>
    rw [ledgerAfter_cons]
    rcases List.mem_cons.mp hpe with h | h
    · subst h
      apply mem_ledgerAfter_of_mem
      rw [if_neg hne]
      exact self_mem_addId _ _
    · exact ih _ h

/-- C10 amended: when an exception interrupts the per-message pipeline, the
returned record keeps the message's original id (and carries the error
category), the monitoring loop adds that id to the ledger, and while the id
remains in the ledger the message is filtered out of every later batch —
but the marking is not permanent: the cap trim can evict the id (see the
counterexample), after which a re-fetched copy is reprocessed. -/
theorem crashed_message_marked_processed (raw : EmailData) (cfg : Config)
    (r : LlmResults) (k : Nat) (msg : String) (st : MonitorState)
    (batch batch2 : List EmailData) (out : EmailData → ProcOutcome)
    (ids2 : List String)
    (_hout : out raw = ProcOutcome.raisedAfter r k msg)
    (hnew : raw ∈ filterNew st.processed_ids batch)
    (hlater : raw.id ∈ ids2) :
    (process_single_email raw cfg (ProcOutcome.raisedAfter r k msg)).id = raw.id ∧
    (process_single_email raw cfg
        (ProcOutcome.raisedAfter r k msg)).priority_category = some "Error" ∧
    raw.id ∈ ledgerAfter st.processed_ids
        (cycleProcessedList cfg out st.processed_ids batch) ∧
    raw ∉ filterNew ids2 batch2 := by
  have hraw_ne : raw.id ≠ "" := by
    rcases List.mem_filter.mp hnew with ⟨_, hpred⟩
    simp at hpred
    exact hpred.1
  refine ⟨process_single_email_id raw cfg _, rfl, ?_, ?_⟩
  · have hin : process_single_email raw cfg (out raw) ∈
        cycleProcessedList cfg out st.processed_ids batch :=
      List.mem_map_of_mem _ hnew
    have hid : (process_single_email raw cfg (out raw)).id = raw.id :=
      process_single_email_id raw cfg _
    have := ledgerAfter_contains_attempt st.processed_ids _ _ hin
      (by rw [hid]; exact hraw_ne)
    rwa [hid] at this
  · intro hcontra
    rcases List.mem_filter.mp hcontra with ⟨_, hpred⟩
    simp [List.contains] at hpred
    exact hpred.2 hlater

/-- C10 amended witness: a crashed message with id `c1` keeps its id, is
error-categorized, lands in the ledger, and is filtered out of a later
batch whose ledger still holds `c1`. -/
theorem crashed_message_marked_processed_witness :
    ((fun _ : EmailData => ProcOutcome.raisedAfter {} 0 "boom")
        ({ id := "c1" } : EmailData) = ProcOutcome.raisedAfter {} 0 "boom") ∧
    ({ id := "c1" } : EmailData) ∈
      filterNew ({} : MonitorState).processed_ids [{ id := "c1" }] ∧
    (EmailData.id { id := "c1" }) ∈ ["c1"] ∧
    ((process_single_email { id := "c1" } {}
        (ProcOutcome.raisedAfter {} 0 "boom")).id = EmailData.id { id := "c1" } ∧
    (process_single_email { id := "c1" } {}
        (ProcOutcome.raisedAfter {} 0 "boom")).priority_category = some "Error" ∧
    (EmailData.id { id := "c1" }) ∈ ledgerAfter ({} : MonitorState).processed_ids
        (cycleProcessedList {} (fun _ => ProcOutcome.raisedAfter {} 0 "boom")
          ({} : MonitorState).processed_ids [{ id := "c1" }]) ∧
    ({ id := "c1" } : EmailData) ∉ filterNew ["c1"] [{ id := "c1" }]) :=
  ⟨rfl, by decide, by decide,
    crashed_message_marked_processed { id := "c1" } {} {} 0 "boom" {}
      [{ id := "c1" }] [{ id := "c1" }]
      (fun _ => ProcOutcome.raisedAfter {} 0 "boom") ["c1"]
      rfl (by decide) (by decide)⟩

/-- Distinct lengths give distinct ids. -/
theorem natId_inj (a b : Nat) (h : natId a = natId b) : a = b := by
  have h2 := congrArg String.data h
  simp only [natId] at h2
  have h3 := congrArg List.length h2
  simpa using h3

/-- Ids of positive length are truthy. -/
theorem natId_ne_empty (n : Nat) (hn : 1 ≤ n) : natId n ≠ "" := by
  intro h
  have h2 := congrArg String.data h
  simp only [natId] at h2
  have h3 := congrArg List.length h2
  simp at h3
  omega

theorem not_mem_bigLedger : natId 2001 ∉ bigLedger := by
  unfold bigLedger
  intro h
  rcases List.mem_map.mp h with ⟨j, hj, hEq⟩
  have hj2 := natId_inj j 2001 hEq
  rw [List.mem_range'_1] at hj
  omega

/-- Membership-free form of a failed `contains` lookup, avoiding any
element-by-element evaluation of the 2000-id ledger. -/
theorem contains_eq_false_of_not_mem (l : List String) (x : String)
    (h : x ∉ l) : l.contains x = false := by
  cases hc : l.contains x with
  | false => rfl
  | true => exact absurd (List.mem_of_elem_eq_true hc) h

theorem filterNew_evicted :
    filterNew bigLedger [evictedMsg] = [evictedMsg] := by
  have hpred : (fun e : EmailData =>
      !(e.id == "") && !(bigLedger.contains e.id)) evictedMsg = true := by
    show (!(evictedMsg.id == "") && !(bigLedger.contains evictedMsg.id)) = true
    have h1 : (evictedMsg.id == "") = false :=
      beq_eq_false_iff_ne.mpr (natId_ne_empty 2001 (by omega))
    have h2 : bigLedger.contains evictedMsg.id = false :=
      contains_eq_false_of_not_mem _ _ not_mem_bigLedger
    rw [h1, h2]
    rfl
  unfold filterNew
  rw [List.filter_cons, if_pos hpred, List.filter_nil]

theorem evictedMsg_id : evictedMsg.id = natId 2001 := rfl

theorem contains_bigLedger : bigLedger.contains (natId 2001) = false :=
  contains_eq_false_of_not_mem _ _ not_mem_bigLedger

theorem addId_evicted : addId bigLedger (natId 2001) = bigLedger ++ [natId 2001] := by
  unfold addId
  rw [contains_bigLedger]
  rfl

theorem ledgerAfter_nil (ids : List String) : ledgerAfter ids [] = ids := rfl

/-- After the crashing cycle's per-message loop, the ledger is the old
2000 ids followed by the new message's id. -/
theorem ledgerAfter_evicted :
    ledgerAfter bigLedger (cycleProcessedList {} crashOutcome bigLedger [evictedMsg])
      = bigLedger ++ [natId 2001] := by
  unfold cycleProcessedList
  rw [filterNew_evicted, List.map_cons, List.map_nil]
  rw [ledgerAfter_cons, process_single_email_id, evictedMsg_id,
    if_neg (natId_ne_empty 2001 (by omega)), ledgerAfter_nil, addId_evicted]

theorem preTrimState_ids : preTrimState.processed_ids = bigLedger := rfl

/-- Ledger contents after a completed cycle, as an equation. -/
theorem runCycle_completed_ids (cfg : Config) (out : EmailData → ProcOutcome)
    (enumOrder : List String → List String) (st : MonitorState)
    (start_time : Int) (batch : List EmailData) :
    (runCycle cfg out enumOrder st start_time batch
        CycleOutcome.completed).processed_ids
      = trimStep enumOrder (ledgerAfter st.processed_ids
          (cycleProcessedList cfg out st.processed_ids batch)) := rfl

theorem postTrimState_ids : postTrimState.processed_ids = bigLedger.drop 500 := by
  unfold postTrimState
  rw [runCycle_completed_ids, preTrimState_ids, ledgerAfter_evicted]
  unfold trimStep
  have hlen : (bigLedger ++ [natId 2001]).length = 2001 := by simp [bigLedger]
  rw [if_pos (by rw [hlen]; omega)]
  unfold evilEnumOrder lastFifteenHundred
  have hrot : (bigLedger ++ [natId 2001]).rotate 2000 = natId 2001 :: bigLedger := by
    rw [List.rotate_eq_drop_append_take (by simp [bigLedger])]
    have h1 : bigLedger.length = 2000 := by simp [bigLedger]
    rw [show (2000 : Nat) = bigLedger.length from h1.symm, List.drop_left,
      List.take_left]
    rfl
  rw [hrot]
  have h2 : (natId 2001 :: bigLedger).length - 1500 = 501 := by simp [bigLedger]
  rw [h2]
  show (natId 2001 :: bigLedger).drop (500 + 1) = bigLedger.drop 500
  exact List.drop_succ_cons

/-- C10 counterexample: the crashed message's id is in the ledger right
after the per-message loop, but the completed cycle's trim — acting on a
legal iteration order of the unordered set — evicts it, and the next
cycle's dedup filter lets the same message through to be reprocessed, so
"permanently marked processed, never retried in any later cycle" is false. -/
theorem crashed_message_reprocessed_after_trim :
    (evilEnumOrder (bigLedger ++ [natId 2001])).Perm (bigLedger ++ [natId 2001]) ∧
    natId 2001 ∈ ledgerAfter bigLedger
        (cycleProcessedList {} crashOutcome bigLedger [evictedMsg]) ∧
    natId 2001 ∉ postTrimState.processed_ids ∧
    evictedMsg ∈ filterNew postTrimState.processed_ids [evictedMsg] := by
  have hnotdrop : natId 2001 ∉ bigLedger.drop 500 := fun h =>
    not_mem_bigLedger (List.drop_subset _ _ h)
  refine ⟨List.rotate_perm _ _, ?_, ?_, ?_⟩
  · rw [ledgerAfter_evicted]
    exact List.mem_append_right _ (List.mem_singleton.mpr rfl)
  · rw [postTrimState_ids]
    exact hnotdrop
  · rw [postTrimState_ids]
    apply List.mem_filter.mpr
    refine ⟨List.mem_singleton.mpr rfl, ?_⟩
    show (!(evictedMsg.id == "") && !((bigLedger.drop 500).contains evictedMsg.id)) = true
    rw [evictedMsg_id]
    have h1 : (natId 2001 == "") = false :=
      beq_eq_false_iff_ne.mpr (natId_ne_empty 2001 (by omega))
    have h2 : (bigLedger.drop 500).contains (natId 2001) = false :=
      contains_eq_false_of_not_mem _ _ hnotdrop
    rw [h1, h2]
    rfl

/-- C1: the trim step and the persistence round trip depend on the
unordered set's iteration order.  Under the insertion order the trim would
keep exactly the ids at insertion positions 502..2001 (what the claim
expects), but the reversed order is an equally legal enumeration of the
same set, and under it the oldest id survives the trim while the newest is
dropped; likewise a save/load round trip returns the ids in enumeration
order, not insertion order.  Ids are numbered by insertion position. -/
theorem trim_depends_on_set_iteration_order :
    trimStep id (List.range' 1 2001) = List.range' 502 1500 ∧
    ((List.range' 1 2001).reverse).Perm (List.range' 1 2001) ∧
    1 ∈ trimStep List.reverse (List.range' 1 2001) ∧
    2001 ∉ trimStep List.reverse (List.range' 1 2001) ∧
    load_processed_ids (save_processed_ids List.reverse ["id1", "id2"])
      ≠ ["id1", "id2"] ∧
    (load_processed_ids (save_processed_ids List.reverse
      ["id1", "id2"])).Perm ["id1", "id2"] := by
  have hdrop : (List.range' 1 2001).drop 501 = List.range' 502 1500 := by
    have h := List.range'_append 1 501 1500 1
    simp only [one_mul] at h
    rw [← h, List.drop_append_of_le_length (by simp)]
    simp
  have htake : (List.range' 1 2001).take 1500 = List.range' 1 1500 := by
    have h := List.range'_append 1 1500 501 1
    simp only [one_mul] at h
    rw [← h, List.take_append_of_le_length (by simp)]
    simp
  have hrevdrop : ((List.range' 1 2001).reverse).drop 501
      = ((List.range' 1 2001).take 1500).reverse := by
    rw [List.reverse_take]
    simp
  refine ⟨?_, List.reverse_perm _, ?_, ?_, by decide, by decide⟩
  · unfold trimStep lastFifteenHundred
    rw [if_pos (by simp)]
    simpa using hdrop
  · unfold trimStep lastFifteenHundred
    rw [if_pos (by simp)]
    simp only [List.length_reverse, List.length_range']
    rw [show (2001 - 1500 : Nat) = 501 from rfl, hrevdrop, htake]
    rw [List.mem_reverse, List.mem_range'_1]
    omega
  · unfold trimStep lastFifteenHundred
    rw [if_pos (by simp)]
    simp only [List.length_reverse, List.length_range']
    rw [show (2001 - 1500 : Nat) = 501 from rfl, hrevdrop, htake]
    rw [List.mem_reverse, List.mem_range'_1]
    omega

end EmailAssistant
